import Mathlib

/-!
Verification development for the checkout subsystem of the maison-marcelina
backend (src/backend/src/app/services/stripe_checkout.py and
src/backend/src/app/api/checkout.py).

The Python service code is shallowly embedded as executable Lean functions.
Conventions of the embedding:

* Python `str | None` fields read from JSON payloads are modelled as
  `Option String`; a JSON value of a non-string type behaves exactly like an
  absent value under the helper `_normalize_text` of the source (both yield
  the empty string), so `none` covers both cases.
* Python string operations are modelled on ASCII text: `str.strip`,
  `str.upper`, `str.lower`, `str.isdigit`, `str.isalpha` are embedded as
  character-list operations agreeing with Python on ASCII input.
* The wall clock consulted by `datetime.now` is threaded through as an
  explicit `now : Nat` parameter; the rendering of a timestamp to an
  ISO-8601 string is abstracted by the injective constructors of
  `OrderedAt` (the source renders with `datetime.isoformat`, which is
  injective on the values distinguished here).
* The Decimal amount `total_amount` (the source stores
  `float(Decimal(cents) / 100)` rounded to two fractional digits, which is
  exact for integer cents) is represented by the integer count of minor
  units `total_amount_cents`.
* External collaborators (payment gateway, storage) are modelled at the
  interface documented in the spec: the gateway response for a session
  retrieval is a parameter, and the conflict-aware storage upsert keyed on
  order_number uniqueness is the function `upsert_confirmed_order` on a list
  of rows. Calls to external systems are recorded in an explicit trace of
  `ExternalCall` values so that the theorems can speak about which calls a
  code path performs.
-/

set_option autoImplicit false
set_option linter.unusedVariables false
set_option maxRecDepth 8192

/-- Python whitespace characters stripped by `str.strip` (ASCII range). -/
def is_py_space (c : Char) : Bool :=
  c == ' ' || c == '\t' || c == '\n' || c == '\r' || c == '\x0B' || c == '\x0C'

/-- Embedding of Python `str.strip()`. -/
def pyStrip (s : String) : String :=
  ⟨((s.data.dropWhile is_py_space).reverse.dropWhile is_py_space).reverse⟩

/-- ASCII uppercase of one character, as Python `str.upper` acts on ASCII. -/
def py_upper_char (c : Char) : Char :=
  if 'a' ≤ c ∧ c ≤ 'z' then Char.ofNat (c.toNat - 32) else c

/-- ASCII lowercase of one character, as Python `str.lower` acts on ASCII. -/
def py_lower_char (c : Char) : Char :=
  if 'A' ≤ c ∧ c ≤ 'Z' then Char.ofNat (c.toNat + 32) else c

/-- Embedding of Python `str.upper()` (ASCII). -/
def pyUpper (s : String) : String := ⟨s.data.map py_upper_char⟩

/-- Embedding of Python `str.lower()` (ASCII). -/
def pyLower (s : String) : String := ⟨s.data.map py_lower_char⟩

/-- Embedding of `_normalize_text` (stripe_checkout.py line 120): a string is
stripped, anything else becomes the empty string. -/
def normalize_text : Option String → String
  | some s => pyStrip s
  | none => ""

/-- Embedding of `_normalize_size` (stripe_checkout.py line 126): `None` stays
`None`, otherwise the value is stripped and a blank result becomes `None`,
the representation of the default "no size" value. -/
def normalize_size : Option String → Option String
  | none => none
  | some v => if pyStrip v = "" then none else some (pyStrip v)

/-- ASCII hexadecimal digit (both cases), matching `[0-9a-f]` under
`re.IGNORECASE`. -/
def is_ascii_hex (c : Char) : Bool :=
  c.isDigit || (decide ('a' ≤ c) && decide (c ≤ 'f')) ||
    (decide ('A' ≤ c) && decide (c ≤ 'F'))

/-- UUID version nibble `[1-5]` of the pattern `_UUID_PATTERN`. -/
def is_uuid_version (c : Char) : Bool :=
  decide ('1' ≤ c) && decide (c ≤ '5')

/-- UUID variant character `[89ab]` under `re.IGNORECASE`. -/
def is_uuid_variant (c : Char) : Bool :=
  c == '8' || c == '9' || c == 'a' || c == 'b' || c == 'A' || c == 'B'

/-- Embedding of `_is_valid_uuid` (stripe_checkout.py line 140): the stripped
value must match the anchored pattern
`[0-9a-f]{8}-[0-9a-f]{4}-[1-5][0-9a-f]{3}-[89ab][0-9a-f]{3}-[0-9a-f]{12}`
case-insensitively. -/
def is_valid_uuid (s : String) : Bool :=
  let cs := (pyStrip s).data
  cs.length == 36 &&
  (cs.take 8).all is_ascii_hex &&
  cs.get? 8 == some '-' &&
  ((cs.drop 9).take 4).all is_ascii_hex &&
  cs.get? 13 == some '-' &&
  ((cs.get? 14).map is_uuid_version).getD false &&
  ((cs.drop 15).take 3).all is_ascii_hex &&
  cs.get? 18 == some '-' &&
  ((cs.get? 19).map is_uuid_variant).getD false &&
  ((cs.drop 20).take 3).all is_ascii_hex &&
  cs.get? 23 == some '-' &&
  ((cs.drop 24).take 12).all is_ascii_hex

/-- Error taxonomy of the checkout service, one constructor per exception
class of stripe_checkout.py (configuration, validation with HTTP status,
upstream API error with status, retryable, auth, webhook signature). -/
inductive CheckoutError
  | configuration (msg : String)
  | validation (msg : String) (status : Nat)
  | apiError (msg : String) (status : Nat)
  | retryable (msg : String)
  | authError (msg : String)
  | webhookSignature (msg : String)
deriving Repr, DecidableEq

/-- Relevant runtime configuration (app.core.config.Settings): the configured
store currency and the Stripe secret key (empty string models a missing key,
matching Python truthiness of `settings.stripe_secret_key`). -/
structure Settings where
  stripe_currency : String
  stripe_secret_key : String
deriving Repr, DecidableEq

/-- JSON value found under the `amount_total` key of a session payload. The
source accepts an `int`, or a `float` whose value is integral; any other
value (including an absent key, covered by `Option`) is rejected. -/
inductive AmountValue
  | intVal (n : Int)
  | floatIntegral (n : Int)
  | floatFractional
deriving Repr, DecidableEq

/-- JSON value found under the `items_count` metadata key: an `int`, a
string, or anything else (covered by `none` in the enclosing `Option`,
since every other type falls through to the default). -/
inductive ItemsCountValue
  | intVal (n : Int)
  | strVal (s : String)
deriving Repr, DecidableEq

/-- Shape of a Stripe checkout-session payload as read by the reconciler.
Fields are the JSON keys accessed by `_build_confirmed_order` and
`sync_checkout_session_order`; `metadata_user_id` and
`metadata_items_count` are the two keys read from the `metadata` object (a
non-dict metadata value behaves as an empty dict in the source and is
covered by `none`). `created` keeps only `int` JSON values, since every
non-int value takes the wall-clock branch exactly like an absent key. -/
structure StripeSession where
  id : Option String
  payment_status : Option String
  client_reference_id : Option String
  metadata_user_id : Option String
  metadata_items_count : Option ItemsCountValue
  amount_total : Option AmountValue
  currency : Option String
  created : Option Int
deriving Repr, DecidableEq

/-- Value of the `ordered_at` field: either the session creation epoch
(rendered by the source with `datetime.fromtimestamp(..).isoformat()`) or
the wall clock at reconciliation time (`datetime.now(..).isoformat()`).
Both renderings are injective, so the constructors keep the raw values. -/
inductive OrderedAt
  | epochTime (n : Int)
  | wallClock (t : Nat)
deriving Repr, DecidableEq

/-- Embedding of the dataclass `ConfirmedOrderData` (stripe_checkout.py line
86); `total_amount_cents` holds the exact minor-unit amount whose value the
source stores as the float `cents / 100`. -/
structure ConfirmedOrderData where
  order_number : String
  user_id : String
  status : String
  total_amount_cents : Int
  currency : String
  items_count : Int
  ordered_at : OrderedAt
deriving Repr, DecidableEq

/-- Order-number alphabet kept by `_ORDER_NUMBER_PATTERN`: the pattern
removes every character that is not `A`-`Z` or `0`-`9`. -/
def is_order_number_char (c : Char) : Bool :=
  (decide ('A' ≤ c) && decide (c ≤ 'Z')) || c.isDigit

/-- Characters of the uppercased session id that survive the
`_ORDER_NUMBER_PATTERN` substitution (stripe_checkout.py line 462). -/
def order_number_cleaned (session_id : String) : List Char :=
  (pyUpper session_id).data.filter is_order_number_char

/-- Embedding of `_build_order_number` (stripe_checkout.py line 461). -/
def build_order_number (session_id : String) : Except CheckoutError String :=
  let cleaned := order_number_cleaned session_id
  let suffix := if 12 < cleaned.length then cleaned.drop (cleaned.length - 12) else cleaned
  if suffix = [] then
    Except.error (CheckoutError.validation "Invalid Stripe session id" 400)
  else
    Except.ok ("MM-" ++ (⟨suffix⟩ : String))

/-- Embedding of the attribution chain of `_build_confirmed_order`
(stripe_checkout.py lines 482-486): prefer `client_reference_id`, else the
metadata `user_id`, else the caller-supplied fallback user id, each passed
through `_normalize_text`. -/
def resolve_attribution_user_id (session : StripeSession)
    (fallback_user_id : Option String) : String :=
  let a := normalize_text session.client_reference_id
  if a ≠ "" then a
  else
    let b := normalize_text session.metadata_user_id
    if b ≠ "" then b else normalize_text fallback_user_id

/-- Python `str.isdigit` on ASCII text: non-empty and all decimal digits. -/
def is_digit_str (s : String) : Bool :=
  (decide (s.data ≠ [])) && s.data.all Char.isDigit

/-- Decimal value of a digit string. -/
def digits_to_nat (l : List Char) : Nat :=
  l.foldl (fun acc c => acc * 10 + (c.toNat - 48)) 0

/-- Embedding of the `items_count` resolution of `_build_confirmed_order`
(stripe_checkout.py lines 514-521): default 1, an `int` value is taken as
is, a digit string is parsed, and a non-positive result falls back to 1. -/
def resolve_items_count (raw : Option ItemsCountValue) : Int :=
  let items_count : Int :=
    match raw with
    | some (ItemsCountValue.intVal n) => n
    | some (ItemsCountValue.strVal s) =>
      if is_digit_str (pyStrip s) then Int.ofNat (digits_to_nat (pyStrip s).data) else 1
    | none => 1
  if items_count ≤ 0 then 1 else items_count

/-- Embedding of the `ordered_at` resolution of `_build_confirmed_order`
(stripe_checkout.py lines 523-527): the session creation epoch when it is a
positive integer, else the current wall clock. -/
def resolve_ordered_at (created : Option Int) (now : Nat) : OrderedAt :=
  match created with
  | some n => if 0 < n then OrderedAt.epochTime n else OrderedAt.wallClock now
  | none => OrderedAt.wallClock now

/-- Python `str.isalpha` on ASCII text, used for the currency well-formedness
check. -/
def is_py_alpha (c : Char) : Bool :=
  (decide ('A' ≤ c) && decide (c ≤ 'Z')) || (decide ('a' ≤ c) && decide (c ≤ 'z'))

/-- Embedding of `_build_confirmed_order` (stripe_checkout.py lines 469-537).
Returns `Except.ok none` when the resolved attribution value is blank or not
a valid UUID (nothing to record), an error for a blank session id or a
malformed `amount_total` or an empty cleaned order number, and otherwise the
derived order. The wall clock is the explicit `now` parameter. -/
def build_confirmed_order (settings : Settings) (session : StripeSession)
    (fallback_user_id : Option String) (now : Nat) :
    Except CheckoutError (Option ConfirmedOrderData) :=
  let session_id := normalize_text session.id
  if session_id = "" then
    Except.error (CheckoutError.validation "Invalid Stripe checkout session payload" 400)
  else
    let raw_user_id := resolve_attribution_user_id session fallback_user_id
    if raw_user_id = "" ∨ is_valid_uuid raw_user_id = false then
      Except.ok none
    else
      let amount? : Option Int :=
        match session.amount_total with
        | some (AmountValue.intVal n) => some n
        | some (AmountValue.floatIntegral n) => some n
        | _ => none
      match amount? with
      | none => Except.error (CheckoutError.validation "Invalid Stripe amount_total" 400)
      | some amount_total_cents =>
        if amount_total_cents < 0 then
          Except.error (CheckoutError.validation "Invalid Stripe amount_total" 400)
        else
          let raw_currency := pyUpper (normalize_text session.currency)
          let currency :=
            if raw_currency.length = 3 ∧ raw_currency.data.all is_py_alpha then
              raw_currency
            else
              pyUpper settings.stripe_currency
          let items_count := resolve_items_count session.metadata_items_count
          let ordered_at := resolve_ordered_at session.created now
          match build_order_number session_id with
          | Except.error e => Except.error e
          | Except.ok order_number =>
            Except.ok (some
              { order_number := order_number
                user_id := raw_user_id
                status := "En preparation"
                total_amount_cents := amount_total_cents
                currency := currency
                items_count := items_count
                ordered_at := ordered_at })

/-- Decidable equality for `Except` results, used by concrete evaluations. -/
instance {ε α : Type} [DecidableEq ε] [DecidableEq α] : DecidableEq (Except ε α) := fun a b =>
  match a, b with
  | Except.ok x, Except.ok y =>
    if h : x = y then isTrue (by rw [h]) else isFalse (by intro hc; cases hc; exact h rfl)
  | Except.error x, Except.error y =>
    if h : x = y then isTrue (by rw [h]) else isFalse (by intro hc; cases hc; exact h rfl)
  | Except.ok _, Except.error _ => isFalse (by intro hc; cases hc)
  | Except.error _, Except.ok _ => isFalse (by intro hc; cases hc)

example : build_order_number "cs_test_AbC123!!" = Except.ok "MM-CSTESTABC123" := by decide

/-- External calls performed by the checkout code paths: retrieval of a
session from the payment gateway, the storage upsert of an order row, and
the gateway session-creation call (carrying the idempotency key actually
passed, `none` when the source omits the keyword argument). -/
inductive ExternalCall
  | retrieve_session (session_id : String)
  | upsert_order (order : ConfirmedOrderData)
  | gateway_create_session (idempotency_key : Option String)
deriving Repr, DecidableEq

/-- Storage model: the rows of the `customer_orders` table. The storage
uniqueness constraint on `order_number` is expressed by the theorems as a
hypothesis on row counts, never assumed silently. -/
abbrev OrderStore := List ConfirmedOrderData

/-- Modelled from the spec: the external conflict-aware upsert store. The
source function `_upsert_confirmed_order` (stripe_checkout.py lines 540-571)
posts the row with `on_conflict=order_number` and
`Prefer: resolution=merge-duplicates`; the spec (sections 3 and 6) documents
the storage collaborator as a merge-on-conflict write keyed on order_number
uniqueness, i.e. the row is inserted when the key is new and overwritten
when the key exists. Transport and configuration failures of the store are
outside the claims and are not modelled. -/
def upsert_confirmed_order (store : OrderStore) (order : ConfirmedOrderData) : OrderStore :=
  if store.any (fun row => row.order_number == order.order_number) then
    store.map (fun row => if row.order_number = order.order_number then order else row)
  else
    store ++ [order]

/-- Number of stored rows carrying a given order number. -/
def order_row_count (store : OrderStore) (key : String) : Nat :=
  (store.filter (fun row => row.order_number == key)).length

/-- Result payload of the sync endpoint (stripe_checkout.py lines 620-647). -/
structure SyncResult where
  payment_status : String
  order_recorded : Bool
  order_number : Option String
deriving Repr, DecidableEq

/-- Outcome of a sync call: the returned value or raised error, the storage
rows afterwards, and the trace of external calls made. -/
structure SyncOutcome where
  result : Except CheckoutError SyncResult
  store : OrderStore
  calls : List ExternalCall
deriving Repr, DecidableEq

/-- Embedding of `sync_checkout_session_order` (stripe_checkout.py lines
608-647) together with the session-id validation and configuration check of
`_retrieve_checkout_session` (lines 573-578). The payment gateway is
modelled at its interface: `gateway_session` is the payload the gateway
returns for the requested session id, and the retrieval is recorded in the
call trace; gateway transport errors are outside the claims. -/
def sync_checkout_session_order (settings : Settings) (gateway_session : StripeSession)
    (session_id : String) (expected_user_id : Option String) (now : Nat)
    (store : OrderStore) : SyncOutcome :=
  let nrm_expected := normalize_text expected_user_id
  if nrm_expected ≠ "" ∧ is_valid_uuid nrm_expected = false then
    { result := Except.error (CheckoutError.validation "Identifiant utilisateur invalide" 422)
      store := store, calls := [] }
  else
    let nrm_session_id := pyStrip session_id
    if nrm_session_id = "" then
      { result := Except.error (CheckoutError.validation "Session checkout invalide" 422)
        store := store, calls := [] }
    else if settings.stripe_secret_key = "" then
      { result := Except.error (CheckoutError.configuration "STRIPE_SECRET_KEY must be configured")
        store := store, calls := [] }
    else
      let session := gateway_session
      let calls0 := [ExternalCall.retrieve_session nrm_session_id]
      let payment_status := pyLower (normalize_text session.payment_status)
      if payment_status ≠ "paid" then
        { result := Except.ok
            { payment_status := if payment_status = "" then "unknown" else payment_status
              order_recorded := false, order_number := none }
          store := store, calls := calls0 }
      else
        match build_confirmed_order settings session
            (if nrm_expected = "" then none else some nrm_expected) now with
        | Except.error e => { result := Except.error e, store := store, calls := calls0 }
        | Except.ok none =>
          { result := Except.ok
              { payment_status := "paid", order_recorded := false, order_number := none }
            store := store, calls := calls0 }
        | Except.ok (some order) =>
          if nrm_expected ≠ "" ∧ order.user_id ≠ nrm_expected then
            { result := Except.error
                (CheckoutError.authError "Session checkout non associee au compte")
              store := store, calls := calls0 }
          else
            { result := Except.ok
                { payment_status := "paid", order_recorded := true
                  order_number := some order.order_number }
              store := upsert_confirmed_order store order
              calls := calls0 ++ [ExternalCall.upsert_order order] }

/-- Payload found under `event.data.object`: either a dict (or an object
convertible to a dict by `to_dict_recursive`, which the source treats
identically), or anything else, which the source rejects. -/
inductive WebhookEventObject
  | dictLike (session : StripeSession)
  | invalid
deriving Repr, DecidableEq

/-- Shape of a verified Stripe webhook event as read by
`handle_stripe_webhook_event`: the `type` key and the payload under
`data.object` (a non-dict `data` value behaves as an empty dict, making the
object payload invalid). -/
structure StripeWebhookEvent where
  type : Option String
  data_object : WebhookEventObject
deriving Repr, DecidableEq

/-- Outcome of the webhook handler: the unit return or raised error, the
storage rows afterwards, and the trace of external calls made. -/
structure WebhookOutcome where
  result : Except CheckoutError Unit
  store : OrderStore
  calls : List ExternalCall
deriving Repr, DecidableEq

/-- Derivation-and-write tail shared by both settlement event types
(stripe_checkout.py lines 678-682): derive the order, do nothing when the
derivation yields nothing, otherwise upsert. The webhook path passes no
fallback user id. -/
def webhook_reconcile (settings : Settings) (session : StripeSession) (now : Nat)
    (store : OrderStore) : WebhookOutcome :=
  match build_confirmed_order settings session none now with
  | Except.error e => { result := Except.error e, store := store, calls := [] }
  | Except.ok none => { result := Except.ok (), store := store, calls := [] }
  | Except.ok (some order) =>
    { result := Except.ok (), store := upsert_confirmed_order store order
      calls := [ExternalCall.upsert_order order] }

/-- Embedding of `handle_stripe_webhook_event` (stripe_checkout.py lines
650-683): only the two settlement event types trigger work; the synchronous
completed type additionally requires a paid payment status; the async
succeeded type goes straight to derivation. -/
def handle_stripe_webhook_event (settings : Settings) (event : StripeWebhookEvent)
    (now : Nat) (store : OrderStore) : WebhookOutcome :=
  let event_type := normalize_text event.type
  if event_type = "checkout.session.completed" ∨
      event_type = "checkout.session.async_payment_succeeded" then
    match event.data_object with
    | WebhookEventObject.invalid =>
      { result := Except.error (CheckoutError.validation "Invalid Stripe event object" 400)
        store := store, calls := [] }
    | WebhookEventObject.dictLike session =>
      if event_type = "checkout.session.completed" ∧
          pyLower (normalize_text session.payment_status) ≠ "paid" then
        { result := Except.ok (), store := store, calls := [] }
      else
        webhook_reconcile settings session now store
  else
    { result := Except.ok (), store := store, calls := [] }

/-- Embedding of the dataclass `CheckoutCartItem` (stripe_checkout.py line
73). -/
structure CheckoutCartItem where
  product_id : String
  quantity : Int
  size : Option String
deriving Repr, DecidableEq

/-- Merge identity of a cart line (stripe_checkout.py line 315): the
stripped product id and the normalized size. -/
def merge_key (item : CheckoutCartItem) : String × Option String :=
  (pyStrip item.product_id, normalize_size item.size)

/-- Embedding of one insertion into the `merged_quantities` dict
(stripe_checkout.py line 316): a Python dict preserves insertion order, so
it is modelled as an association list where a fresh key is appended and an
existing key has the quantity added in place. -/
def add_quantity (acc : List ((String × Option String) × Int))
    (key : String × Option String) (q : Int) : List ((String × Option String) × Int) :=
  if acc.any (fun kv => kv.1 == key) then
    acc.map (fun kv => if kv.1 = key then (kv.1, kv.2 + q) else kv)
  else
    acc ++ [(key, q)]

/-- Embedding of the validation-and-merge loop of `_build_line_items`
(stripe_checkout.py lines 304-316): a blank product id, a non-positive
quantity, and a quantity above 20 are each rejected; valid lines are merged
into the accumulator by `add_quantity`. -/
def merge_cart_items : List CheckoutCartItem → List ((String × Option String) × Int) →
    Except CheckoutError (List ((String × Option String) × Int))
  | [], acc => Except.ok acc
  | item :: rest, acc =>
    if pyStrip item.product_id = "" then
      Except.error (CheckoutError.validation "Produit invalide" 422)
    else if item.quantity ≤ 0 then
      Except.error (CheckoutError.validation "Quantite invalide" 422)
    else if 20 < item.quantity then
      Except.error (CheckoutError.validation "Quantite trop elevee" 422)
    else
      merge_cart_items rest (add_quantity acc (merge_key item) item.quantity)

/-- Catalog product as read by `_build_line_items`: display name, image
candidates, and the price. The price is the value of `Decimal(str(price))`
represented exactly as a scaled integer `n / 10 ^ scale`; `none` models an
unparseable price. -/
structure CatalogProduct where
  name : Option String
  images : List String
  price : Option (Int × Nat)
deriving Repr, DecidableEq

/-- Rounding used by `Decimal.quantize(..., ROUND_HALF_UP)`: nearest
integer, ties away from zero. The denominator is positive. -/
def round_half_up_away (num : Int) (den : Nat) : Int :=
  let q := num.natAbs / den
  let r := num.natAbs % den
  let mag : Nat := if den ≤ 2 * r then q + 1 else q
  if num < 0 then -(mag : Int) else (mag : Int)

/-- Embedding of `_to_minor_units` (stripe_checkout.py lines 144-154): the
parsed price is quantized to two fractional digits with half-up rounding and
scaled to integer minor units; an unparseable or non-positive result is
rejected (the source raises with HTTP status 502 here). -/
def to_minor_units : Option (Int × Nat) → Except CheckoutError Int
  | none => Except.error (CheckoutError.validation "Prix produit invalide" 502)
  | some (n, k) =>
    let unit_amount :=
      if k ≤ 2 then n * (10 : Int) ^ (2 - k) else round_half_up_away n (10 ^ (k - 2))
    if unit_amount ≤ 0 then
      Except.error (CheckoutError.validation "Prix produit invalide" 502)
    else
      Except.ok unit_amount

/-- One Stripe line item as assembled by `_build_line_items` (lines
339-361), with the nested `price_data` and `product_data` dicts flattened
into the fields the source sets. -/
structure LineItem where
  currency : String
  unit_amount : Int
  name : String
  size : Option String
  image : Option String
  product_id : String
  quantity : Int
deriving Repr, DecidableEq

/-- Lookup into the `_load_active_products` index (lines 288-295): products
with a blank id are never indexed, and with duplicate ids the later catalog
entry wins, as in a Python dict built by iteration. -/
def lookup_product (catalog : List (String × CatalogProduct)) (product_id : String) :
    Option CatalogProduct :=
  (catalog.reverse.find? (fun entry => !(pyStrip entry.1 == "") && entry.1 == product_id)).map
    (fun entry => entry.2)

/-- Embedding of the resolution loop of `_build_line_items` (lines 323-361):
each merged line is resolved against the catalog, rejecting an absent
product, and assembled with display name, first non-blank image and the
minor-unit price. -/
def resolve_line_items (settings : Settings) (catalog : List (String × CatalogProduct)) :
    List ((String × Option String) × Int) → Except CheckoutError (List LineItem)
  | [] => Except.ok []
  | ((product_id, size), quantity) :: rest =>
    match lookup_product catalog product_id with
    | none => Except.error (CheckoutError.validation "Produit indisponible" 422)
    | some product =>
      let name :=
        match product.name with
        | some raw_name => if pyStrip raw_name = "" then product_id else pyStrip raw_name
        | none => product_id
      let first_image := (product.images.find? (fun img => !(pyStrip img == ""))).map pyStrip
      match to_minor_units product.price with
      | Except.error e => Except.error e
      | Except.ok unit_amount =>
        match resolve_line_items settings catalog rest with
        | Except.error e => Except.error e
        | Except.ok items =>
          Except.ok
            ({ currency := settings.stripe_currency, unit_amount := unit_amount
               name := name, size := size, image := first_image
               product_id := product_id, quantity := quantity } :: items)

/-- Embedding of `_build_line_items` (stripe_checkout.py lines 298-363): an
empty cart is rejected, the lines are validated and merged, the total
quantity is the sum over the merged dict values, and the merged lines are
resolved against the catalog. The catalog read is passed in as a snapshot
(the source loads it from the external catalog service). -/
def build_line_items (settings : Settings) (catalog : List (String × CatalogProduct))
    (items : List CheckoutCartItem) : Except CheckoutError (List LineItem × Int) :=
  if items = [] then
    Except.error (CheckoutError.validation "Panier vide" 422)
  else
    match merge_cart_items items [] with
    | Except.error e => Except.error e
    | Except.ok merged =>
      let total_quantity := (merged.map (fun kv => kv.2)).sum
      match resolve_line_items settings catalog merged with
      | Except.error e => Except.error e
      | Except.ok line_items => Except.ok (line_items, total_quantity)

/-- Embedding of the dataclass `CheckoutCustomerReference` (stripe_checkout.py
line 80). -/
structure CheckoutCustomerReference where
  user_id : String
  email : Option String
deriving Repr, DecidableEq

/-- Gateway response to a session-creation call: the `id` and `url` fields
of the created session (`none` covers an absent or non-string value). -/
structure GatewayCreateResponse where
  id : Option String
  url : Option String
deriving Repr, DecidableEq

/-- Return value of `create_checkout_session` (lines 426-429). -/
structure CreateSessionResult where
  session_id : String
  checkout_url : String
deriving Repr, DecidableEq

/-- Outcome of a session-creation call: result or error plus the call
trace. -/
structure CreateOutcome where
  result : Except CheckoutError CreateSessionResult
  calls : List ExternalCall
deriving Repr, DecidableEq

/-- Embedding of the response-shape validation of `create_checkout_session`
(stripe_checkout.py lines 414-429): the session id and url must be strings
with non-blank stripped values, which are returned stripped. -/
def validate_create_response (gateway_response : GatewayCreateResponse) :
    Except CheckoutError CreateSessionResult :=
  match gateway_response.id with
  | none => Except.error (CheckoutError.apiError "Checkout Stripe invalide" 502)
  | some raw_id =>
    if pyStrip raw_id = "" then
      Except.error (CheckoutError.apiError "Checkout Stripe invalide" 502)
    else
      match gateway_response.url with
      | none => Except.error (CheckoutError.apiError "URL checkout Stripe invalide" 502)
      | some raw_url =>
        if pyStrip raw_url = "" then
          Except.error (CheckoutError.apiError "URL checkout Stripe invalide" 502)
        else
          Except.ok { session_id := pyStrip raw_id, checkout_url := pyStrip raw_url }

/-- Embedding of `create_checkout_session` (stripe_checkout.py lines
366-429): configuration check, line-item construction, then the gateway
call, passing the idempotency key only when it is truthy (lines 397-404),
and validation of the response shape. The gateway is modelled at its
interface by the `gateway_response` parameter; gateway transport errors are
outside the claims. -/
def create_checkout_session (settings : Settings)
    (catalog : List (String × CatalogProduct)) (gateway_response : GatewayCreateResponse)
    (items : List CheckoutCartItem) (idempotency_key : Option String)
    (customer : Option CheckoutCustomerReference) : CreateOutcome :=
  if settings.stripe_secret_key = "" then
    { result := Except.error (CheckoutError.configuration "STRIPE_SECRET_KEY must be configured")
      calls := [] }
  else
    match build_line_items settings catalog items with
    | Except.error e => { result := Except.error e, calls := [] }
    | Except.ok (_line_items, _items_count) =>
      let passed_key :=
        match idempotency_key with
        | some k => if k = "" then none else some k
        | none => none
      { result := validate_create_response gateway_response
        calls := [ExternalCall.gateway_create_session passed_key] }

/-- Embedding of the boundary error mapping `_raise_checkout_error`
(api/checkout.py lines 91-105): each service error kind is mapped to the
HTTP status and detail of the raised `HTTPException`. -/
def raise_checkout_error : CheckoutError → Nat × String
  | CheckoutError.configuration msg => (500, msg)
  | CheckoutError.authError msg => (401, msg)
  | CheckoutError.webhookSignature msg => (400, msg)
  | CheckoutError.validation msg status => (status, msg)
  | CheckoutError.retryable msg => (503, msg)
  | CheckoutError.apiError msg status =>
    (if 400 ≤ status ∧ status < 600 then status else 502, msg)

/-- Embedding of `_normalize_idempotency_key` (api/checkout.py lines 69-77):
an absent or blank header is no key, a trimmed value longer than 255
characters raises an HTTP 400, otherwise the trimmed key is kept. -/
def normalize_idempotency_key : Option String → Except (Nat × String) (Option String)
  | none => Except.ok none
  | some raw =>
    let cleaned := pyStrip raw
    if cleaned = "" then Except.ok none
    else if 255 < cleaned.length then Except.error (400, "Idempotency-Key too long")
    else Except.ok (some cleaned)

/-- Outcome of the session-creation endpoint at the HTTP boundary. -/
structure CreateApiOutcome where
  result : Except (Nat × String) CreateSessionResult
  calls : List ExternalCall
deriving Repr, DecidableEq

/-- Embedding of the endpoint `checkout_session_create` (api/checkout.py
lines 127-164) for the parts the claims touch: the idempotency key header is
normalized before `create_checkout_session` runs (argument evaluation order
of the source call), and service errors are mapped by
`_raise_checkout_error`. Origin resolution and the identity-service call
resolving `customer` happen before this slice and are passed in resolved. -/
def checkout_session_create (settings : Settings)
    (catalog : List (String × CatalogProduct)) (gateway_response : GatewayCreateResponse)
    (items : List CheckoutCartItem) (raw_idempotency_key : Option String)
    (customer : Option CheckoutCustomerReference) : CreateApiOutcome :=
  match normalize_idempotency_key raw_idempotency_key with
  | Except.error http => { result := Except.error http, calls := [] }
  | Except.ok key =>
    match create_checkout_session settings catalog gateway_response items key customer with
    | { result := Except.ok r, calls := calls } => { result := Except.ok r, calls := calls }
    | { result := Except.error e, calls := calls } =>
      { result := Except.error (raise_checkout_error e), calls := calls }

/-- Outcome of the sync endpoint at the HTTP boundary. -/
structure SyncApiOutcome where
  result : Except (Nat × String) SyncResult
  store : OrderStore
  calls : List ExternalCall
deriving Repr, DecidableEq

/-- Embedding of the endpoint `checkout_session_sync` (api/checkout.py lines
167-189): the authenticated user id (resolved from the bearer token by the
identity service, `none` for a guest call) is passed as the expected user
id, and service errors are mapped by `_raise_checkout_error`. -/
def checkout_session_sync (settings : Settings) (gateway_session : StripeSession)
    (session_id : String) (auth_user_id : Option String) (now : Nat)
    (store : OrderStore) : SyncApiOutcome :=
  match sync_checkout_session_order settings gateway_session session_id auth_user_id now store with
  | { result := Except.ok r, store := store1, calls := calls } =>
    { result := Except.ok r, store := store1, calls := calls }
  | { result := Except.error e, store := store1, calls := calls } =>
    { result := Except.error (raise_checkout_error e), store := store1, calls := calls }

/-- Spec wording: the last `n` elements of a list, or all of it when it is
shorter. -/
def spec_last_n {α : Type} (n : Nat) (l : List α) : List α := l.drop (l.length - n)

/-- Spec wording: the first non-blank string of a list, or the empty string
when none exists. -/
def spec_first_nonblank (l : List String) : String := (l.find? (fun s => s != "")).getD ""

/-- Concrete settings used by witnesses: a configured secret key and the
store currency. -/
def sample_settings : Settings :=
  { stripe_currency := "eur", stripe_secret_key := "sk_test_key" }

/-- C4: for every session id, the derived order number is the fixed prefix
MM- followed by the last 12 characters (all of them when fewer) of the
uppercased session id with every character outside A-Z and 0-9 removed; when
nothing remains after stripping, derivation fails with the non-retryable
validation error; and the session id cs_test_AbC123!! yields
MM-CSTESTABC123. -/
theorem order_number_derivation_rule (sid : String) :
    (order_number_cleaned sid ≠ [] →
      build_order_number sid =
        Except.ok ("MM-" ++ (⟨spec_last_n 12 (order_number_cleaned sid)⟩ : String))) ∧
    (order_number_cleaned sid = [] →
      build_order_number sid =
        Except.error (CheckoutError.validation "Invalid Stripe session id" 400)) ∧
    build_order_number "cs_test_AbC123!!" = Except.ok "MM-CSTESTABC123" := by
  refine ⟨?_, ?_, by decide⟩
  · intro hne
    unfold build_order_number spec_last_n
    dsimp only
    by_cases hlen : 12 < (order_number_cleaned sid).length
    · rw [if_pos hlen]
      have hdroplen : ((order_number_cleaned sid).drop ((order_number_cleaned sid).length - 12)).length = 12 := by
        rw [List.length_drop]
        omega
      have hne2 : (order_number_cleaned sid).drop ((order_number_cleaned sid).length - 12) ≠ [] := by
        intro hc
        rw [hc] at hdroplen
        simp at hdroplen
      rw [if_neg hne2]
    · rw [if_neg hlen]
      rw [if_neg hne]
      have hz : (order_number_cleaned sid).length - 12 = 0 := by omega
      rw [hz, List.drop_zero]
  · intro hempty
    unfold build_order_number
    dsimp only
    rw [hempty]
    simp

/-- C8: size normalization strips surrounding whitespace, is invariant under
added surrounding whitespace, and a size that is blank after stripping
becomes the distinguished no-size value, which the source represents as the
absent value None (the merge identity and the line-item display both treat
it as the default size). -/
theorem size_normalization_rule (s : String) :
    normalize_size (some s) = (if pyStrip s = "" then none else some (pyStrip s)) ∧
    (pyStrip s = "" → normalize_size (some s) = none) ∧
    normalize_size (some (" " ++ s ++ " ")) = normalize_size (some s) ∧
    normalize_size none = none := by
  refine ⟨rfl, ?_, ?_, rfl⟩
  · intro hblank
    unfold normalize_size
    dsimp only
    rw [if_pos hblank]
  · have hstrip : pyStrip (" " ++ s ++ " ") = pyStrip s := by
      unfold pyStrip
      have hdata : (" " ++ s ++ " ").data = ' ' :: (s.data ++ [' ']) := by
        simp [String.data_append]
      rw [hdata]
      have h1 : List.dropWhile is_py_space (' ' :: (s.data ++ [' '])) =
          List.dropWhile is_py_space (s.data ++ [' ']) := by
        rw [List.dropWhile_cons_of_pos]
        decide
      rw [h1]
      by_cases hall : List.dropWhile is_py_space (s.data ++ [' ']) = []
      · have hall2 : List.dropWhile is_py_space s.data = [] := by
          rcases List.dropWhile_eq_nil_iff.mp hall with hforall
          exact List.dropWhile_eq_nil_iff.mpr (fun x hx => hforall x (List.mem_append_left _ hx))
        rw [hall, hall2]
      · have hsplit : List.dropWhile is_py_space (s.data ++ [' ']) =
            List.dropWhile is_py_space s.data ++ [' '] := by
          by_cases hs : List.dropWhile is_py_space s.data = []
          · exfalso
            apply hall
            rcases List.dropWhile_eq_nil_iff.mp hs with hforall
            refine List.dropWhile_eq_nil_iff.mpr ?_
            intro x hx
            rcases List.mem_append.mp hx with hx1 | hx2
            · exact hforall x hx1
            · rcases List.mem_singleton.mp hx2 with rfl
              decide
          · rcases List.exists_cons_of_ne_nil hs with ⟨y, ys, hys⟩
            have hy : is_py_space y = false := by
              have := List.head?_dropWhile_not is_py_space s.data
              rw [hys] at this
              simpa using this
            rw [List.dropWhile_append]
            simp [hs]
        rw [hsplit, List.reverse_append]
        simp only [List.reverse_cons, List.reverse_nil, List.nil_append, List.singleton_append]
        rw [List.dropWhile_cons_of_pos (by decide)]
    unfold normalize_size
    dsimp only
    rw [hstrip]

/-- Witness for C4 at a session id longer than 12 alphanumerics. -/
theorem order_number_derivation_rule_witness :
    order_number_cleaned "cs_live_a1B2c3D4e5F6g7H8" ≠ [] ∧
    build_order_number "cs_live_a1B2c3D4e5F6g7H8" =
      Except.ok ("MM-" ++ (⟨spec_last_n 12 (order_number_cleaned "cs_live_a1B2c3D4e5F6g7H8")⟩ : String)) :=
  ⟨by decide, (order_number_derivation_rule "cs_live_a1B2c3D4e5F6g7H8").1 (by decide)⟩

/-- Witness for C8 at a whitespace-only size value. -/
theorem size_normalization_rule_witness :
    pyStrip "   " = "" ∧ normalize_size (some "   ") = none :=
  ⟨by decide, (size_normalization_rule "   ").2.1 (by decide)⟩

/-- Concrete paid session payload used by witnesses. -/
def sample_session : StripeSession :=
  { id := some "cs_test_a1b2c3"
    payment_status := some "paid"
    client_reference_id := none
    metadata_user_id := none
    metadata_items_count := none
    amount_total := some (AmountValue.intVal 4999)
    currency := some "eur"
    created := some 1700000000 }

/-- C10: a sync call supplying a non-blank expected user id that is not a
syntactically valid UUID raises the validation error before the session is
retrieved from the payment gateway and before any storage write: the
outcome keeps the store and has an empty call trace. -/
theorem sync_rejects_malformed_expected_user (settings : Settings) (gw : StripeSession)
    (session_id : String) (expected : Option String) (now : Nat) (store : OrderStore)
    (hnb : normalize_text expected ≠ "")
    (hbad : is_valid_uuid (normalize_text expected) = false) :
    sync_checkout_session_order settings gw session_id expected now store =
      { result := Except.error (CheckoutError.validation "Identifiant utilisateur invalide" 422)
        store := store, calls := [] } := by
  unfold sync_checkout_session_order
  dsimp only
  rw [if_pos ⟨hnb, hbad⟩]

/-- Witness for C10 at a concrete malformed expected user id. -/
theorem sync_rejects_malformed_expected_user_witness :
    normalize_text (some "not-a-uuid") ≠ "" ∧
    is_valid_uuid (normalize_text (some "not-a-uuid")) = false ∧
    sync_checkout_session_order sample_settings sample_session "cs_test_a1b2c3"
        (some "not-a-uuid") 0 [] =
      { result := Except.error (CheckoutError.validation "Identifiant utilisateur invalide" 422)
        store := [], calls := [] } :=
  ⟨by decide, by decide,
    sync_rejects_malformed_expected_user sample_settings sample_session "cs_test_a1b2c3"
      (some "not-a-uuid") 0 [] (by decide) (by decide)⟩

/-- C2: a sync call for a session whose payment status does not normalize to
paid returns the normalized status (or unknown when blank) with
order_recorded false and a null order number, leaves the store unchanged and
performs no write: the call trace holds only the gateway retrieval. -/
theorem sync_unpaid_returns_without_write (settings : Settings) (gw : StripeSession)
    (session_id : String) (expected : Option String) (now : Nat) (store : OrderStore)
    (hexp : normalize_text expected = "" ∨ is_valid_uuid (normalize_text expected) = true)
    (hsid : pyStrip session_id ≠ "")
    (hkey : settings.stripe_secret_key ≠ "")
    (hstatus : pyLower (normalize_text gw.payment_status) ≠ "paid") :
    sync_checkout_session_order settings gw session_id expected now store =
      { result := Except.ok
          { payment_status :=
              if pyLower (normalize_text gw.payment_status) = "" then "unknown"
              else pyLower (normalize_text gw.payment_status)
            order_recorded := false, order_number := none }
        store := store
        calls := [ExternalCall.retrieve_session (pyStrip session_id)] } := by
  have hguard : ¬ (normalize_text expected ≠ "" ∧ is_valid_uuid (normalize_text expected) = false) := by
    rintro ⟨hne, hf⟩
    rcases hexp with h | h
    · exact hne h
    · exact absurd (h.symm.trans hf) (by decide)
  unfold sync_checkout_session_order
  dsimp only
  rw [if_neg hguard, if_neg hsid, if_neg hkey, if_pos hstatus]

/-- Concrete unpaid session payload used by the C2 witness. -/
def sample_unpaid_session : StripeSession :=
  { id := some "cs_test_a1b2c3"
    payment_status := some "unpaid"
    client_reference_id := none
    metadata_user_id := none
    metadata_items_count := none
    amount_total := some (AmountValue.intVal 4999)
    currency := some "eur"
    created := some 1700000000 }

/-- Witness for C2 at a concrete unpaid session. -/
theorem sync_unpaid_returns_without_write_witness :
    pyLower (normalize_text sample_unpaid_session.payment_status) ≠ "paid" ∧
    sync_checkout_session_order sample_settings sample_unpaid_session "cs_test_a1b2c3" none 0 [] =
      { result := Except.ok
          { payment_status := "unpaid", order_recorded := false, order_number := none }
        store := []
        calls := [ExternalCall.retrieve_session "cs_test_a1b2c3"] } :=
  ⟨by decide, by
    have h := sync_unpaid_returns_without_write sample_settings sample_unpaid_session
      "cs_test_a1b2c3" none 0 [] (Or.inl rfl) (by decide) (by decide) (by decide)
    rw [h]
    decide⟩

/-- C6: order attribution resolves to the first non-blank value among the
client reference id, the session metadata user id and the caller-supplied
fallback user id; when that value is missing or not a syntactically valid
UUID, derivation returns none rather than an error, and a sync call on such
a paid session reports the order as not recorded and performs no storage
write. -/
theorem attribution_resolution_rule (session : StripeSession) (fb : Option String)
    (settings : Settings) (now : Nat) :
    resolve_attribution_user_id session fb =
      spec_first_nonblank
        [normalize_text session.client_reference_id,
         normalize_text session.metadata_user_id,
         normalize_text fb] ∧
    (normalize_text session.id ≠ "" →
      (resolve_attribution_user_id session fb = "" ∨
        is_valid_uuid (resolve_attribution_user_id session fb) = false) →
      build_confirmed_order settings session fb now = Except.ok none) ∧
    (∀ (session_id : String) (store : OrderStore),
      pyStrip session_id ≠ "" → settings.stripe_secret_key ≠ "" →
      pyLower (normalize_text session.payment_status) = "paid" →
      normalize_text session.id ≠ "" →
      (resolve_attribution_user_id session none = "" ∨
        is_valid_uuid (resolve_attribution_user_id session none) = false) →
      sync_checkout_session_order settings session session_id none now store =
        { result := Except.ok
            { payment_status := "paid", order_recorded := false, order_number := none }
          store := store, calls := [ExternalCall.retrieve_session (pyStrip session_id)] }) := by
  refine ⟨?_, ?_, ?_⟩
  · unfold resolve_attribution_user_id spec_first_nonblank
    dsimp only
    by_cases ha : normalize_text session.client_reference_id = ""
    · by_cases hb : normalize_text session.metadata_user_id = ""
      · by_cases hc : normalize_text fb = ""
        · simp [ha, hb, hc, List.find?]
        · have hcb := bne_iff_ne.mpr hc
          simp [ha, hb, hcb, List.find?]
      · have hbb := bne_iff_ne.mpr hb
        simp [ha, hb, hbb, List.find?]
    · have hab := bne_iff_ne.mpr ha
      simp [ha, hab, List.find?]
  · intro hsid hinv
    unfold build_confirmed_order
    dsimp only
    rw [if_neg hsid, if_pos hinv]
  · intro session_id store hsid hkey hpaid hid hinv
    have hbuild : build_confirmed_order settings session none now = Except.ok none := by
      unfold build_confirmed_order
      dsimp only
      rw [if_neg hid, if_pos hinv]
    unfold sync_checkout_session_order
    dsimp only
    have hguard : ¬ (normalize_text (none : Option String) ≠ "" ∧
        is_valid_uuid (normalize_text (none : Option String)) = false) := by
      rintro ⟨h, _⟩
      exact h rfl
    rw [if_neg hguard, if_neg hsid, if_neg hkey, if_neg (not_not_intro hpaid)]
    have hnone : normalize_text (none : Option String) = "" := rfl
    rw [if_pos hnone, hbuild]

/-- Concrete session payload with a malformed attribution value, used by the
C6 witness. -/
def c6_session : StripeSession :=
  { id := some "cs_test_guest01"
    payment_status := some "paid"
    client_reference_id := some "not-a-uuid"
    metadata_user_id := none
    metadata_items_count := none
    amount_total := some (AmountValue.intVal 1000)
    currency := some "eur"
    created := some 1700000000 }

/-- Witness for C6 at a session whose attribution value is not a UUID. -/
theorem attribution_resolution_rule_witness :
    normalize_text c6_session.id ≠ "" ∧
    is_valid_uuid (resolve_attribution_user_id c6_session none) = false ∧
    build_confirmed_order sample_settings c6_session none 0 = Except.ok none ∧
    sync_checkout_session_order sample_settings c6_session "cs_test_guest01" none 0 [] =
      { result := Except.ok
          { payment_status := "paid", order_recorded := false, order_number := none }
        store := [], calls := [ExternalCall.retrieve_session "cs_test_guest01"] } := by
  have h := attribution_resolution_rule c6_session none sample_settings 0
  refine ⟨by decide, by decide, h.2.1 (by decide) (Or.inr (by decide)), ?_⟩
  have h3 := h.2.2 "cs_test_guest01" [] (by decide) (by decide) (by decide) (by decide)
    (Or.inr (by decide))
  rw [h3]
  decide

/-- C3 (amended): when the supplied expected user id is a valid UUID and the
paid session derives an order attributed to a different user id, sync fails
with the authorization error and performs no storage write, and the boundary
layer surfaces that error as HTTP 401 (the source maps
StripeCheckoutAuthError to status 401, not 403). -/
theorem sync_user_mismatch_auth_error (settings : Settings) (gw : StripeSession)
    (session_id expected_raw : String) (now : Nat) (store : OrderStore)
    (order : ConfirmedOrderData)
    (hexp_nb : pyStrip expected_raw ≠ "")
    (hexp_valid : is_valid_uuid (pyStrip expected_raw) = true)
    (hsid : pyStrip session_id ≠ "")
    (hkey : settings.stripe_secret_key ≠ "")
    (hpaid : pyLower (normalize_text gw.payment_status) = "paid")
    (hderive : build_confirmed_order settings gw (some (pyStrip expected_raw)) now =
      Except.ok (some order))
    (hmismatch : order.user_id ≠ pyStrip expected_raw) :
    sync_checkout_session_order settings gw session_id (some expected_raw) now store =
      { result := Except.error (CheckoutError.authError "Session checkout non associee au compte")
        store := store, calls := [ExternalCall.retrieve_session (pyStrip session_id)] } ∧
    checkout_session_sync settings gw session_id (some expected_raw) now store =
      { result := Except.error (401, "Session checkout non associee au compte")
        store := store, calls := [ExternalCall.retrieve_session (pyStrip session_id)] } := by
  have hmain : sync_checkout_session_order settings gw session_id (some expected_raw) now store =
      { result := Except.error (CheckoutError.authError "Session checkout non associee au compte")
        store := store, calls := [ExternalCall.retrieve_session (pyStrip session_id)] } := by
    have hguard : ¬ (normalize_text (some expected_raw) ≠ "" ∧
        is_valid_uuid (normalize_text (some expected_raw)) = false) := by
      rintro ⟨_, hf⟩
      rw [show normalize_text (some expected_raw) = pyStrip expected_raw from rfl] at hf
      exact absurd (hexp_valid.symm.trans hf) (by decide)
    unfold sync_checkout_session_order
    dsimp only
    rw [if_neg hguard]
    rw [show normalize_text (some expected_raw) = pyStrip expected_raw from rfl]
    rw [if_neg hsid, if_neg hkey, if_neg (not_not_intro hpaid), if_neg hexp_nb, hderive]
    dsimp only
    rw [if_pos ⟨hexp_nb, hmismatch⟩]
  refine ⟨hmain, ?_⟩
  unfold checkout_session_sync
  rw [hmain]
  rfl

/-- Concrete paid session attributed to a user other than the caller, used
by the C3 theorems. -/
def c3_session : StripeSession :=
  { id := some "cs_test_c3match"
    payment_status := some "paid"
    client_reference_id := some "22222222-2222-4222-9222-222222222222"
    metadata_user_id := none
    metadata_items_count := none
    amount_total := some (AmountValue.intVal 1000)
    currency := some "eur"
    created := some 1700000000 }

/-- Counterexample for C3 as stated: at a concrete valid expected user id
and a paid session derived for a different valid user id, the boundary
surfaces the authorization failure with HTTP status 401, not 403. -/
theorem sync_user_mismatch_counterexample :
    (checkout_session_sync sample_settings c3_session "cs_test_c3match"
        (some "11111111-1111-4111-8111-111111111111") 0 []).result =
      Except.error (401, "Session checkout non associee au compte") ∧
    (401 : Nat) ≠ 403 :=
  ⟨by decide, by decide⟩

/-- Witness for C3 (amended) at the same concrete inputs. -/
theorem sync_user_mismatch_auth_error_witness :
    is_valid_uuid (pyStrip "11111111-1111-4111-8111-111111111111") = true ∧
    checkout_session_sync sample_settings c3_session "cs_test_c3match"
        (some "11111111-1111-4111-8111-111111111111") 0 [] =
      { result := Except.error (401, "Session checkout non associee au compte")
        store := [], calls := [ExternalCall.retrieve_session "cs_test_c3match"] } := by
  refine ⟨by decide, ?_⟩
  have h := sync_user_mismatch_auth_error sample_settings c3_session "cs_test_c3match"
    "11111111-1111-4111-8111-111111111111" 0 []
    { order_number := "MM-STESTC3MATCH"
      user_id := "22222222-2222-4222-9222-222222222222"
      status := "En preparation"
      total_amount_cents := 1000
      currency := "EUR"
      items_count := 1
      ordered_at := OrderedAt.epochTime 1700000000 }
    (by decide) (by decide) (by decide) (by decide) (by decide) (by decide) (by decide)
  exact h.2

/-- C5: the webhook handler performs no reconciliation work for event types
other than the two settlement types; for the completed type it additionally
requires the nested payment status to normalize to paid before deriving or
writing; and for the async-payment-succeeded type the outcome is
independent of the payment status field, so no such check is applied. -/
theorem webhook_event_filtering (settings : Settings) (now : Nat) (store : OrderStore) :
    (∀ event : StripeWebhookEvent,
      ¬ (normalize_text event.type = "checkout.session.completed" ∨
          normalize_text event.type = "checkout.session.async_payment_succeeded") →
      handle_stripe_webhook_event settings event now store =
        { result := Except.ok (), store := store, calls := [] }) ∧
    (∀ session : StripeSession,
      pyLower (normalize_text session.payment_status) ≠ "paid" →
      handle_stripe_webhook_event settings
        { type := some "checkout.session.completed"
          data_object := WebhookEventObject.dictLike session } now store =
        { result := Except.ok (), store := store, calls := [] }) ∧
    (∀ (i ps1 ps2 crid mud : Option String) (mic : Option ItemsCountValue)
        (amt : Option AmountValue) (cur : Option String) (cr : Option Int),
      handle_stripe_webhook_event settings
        { type := some "checkout.session.async_payment_succeeded"
          data_object := WebhookEventObject.dictLike ⟨i, ps1, crid, mud, mic, amt, cur, cr⟩ }
        now store =
      handle_stripe_webhook_event settings
        { type := some "checkout.session.async_payment_succeeded"
          data_object := WebhookEventObject.dictLike ⟨i, ps2, crid, mud, mic, amt, cur, cr⟩ }
        now store) := by
  refine ⟨?_, ?_, ?_⟩
  · intro event hnot
    unfold handle_stripe_webhook_event
    dsimp only
    rw [if_neg hnot]
  · intro session hps
    have ht : normalize_text (some "checkout.session.completed") =
        "checkout.session.completed" := by decide
    unfold handle_stripe_webhook_event
    dsimp only
    rw [if_pos (Or.inl ht), if_pos ⟨ht, hps⟩]
  · intro i ps1 ps2 crid mud mic amt cur cr
    have ht : ¬ (normalize_text (some "checkout.session.async_payment_succeeded") =
        "checkout.session.completed" ∧
        pyLower (normalize_text ps1) ≠ "paid") := by
      rintro ⟨hc, _⟩
      exact absurd hc (by decide)
    have ht2 : ¬ (normalize_text (some "checkout.session.async_payment_succeeded") =
        "checkout.session.completed" ∧
        pyLower (normalize_text ps2) ≠ "paid") := by
      rintro ⟨hc, _⟩
      exact absurd hc (by decide)
    have hor : normalize_text (some "checkout.session.async_payment_succeeded") =
        "checkout.session.completed" ∨
        normalize_text (some "checkout.session.async_payment_succeeded") =
        "checkout.session.async_payment_succeeded" := Or.inr (by decide)
    unfold handle_stripe_webhook_event
    dsimp only
    rw [if_pos hor, if_neg ht, if_neg ht2]
    unfold webhook_reconcile
    rfl

/-- Witness for C5: an unrelated event type is ignored with no write, and a
completed event with an unpaid session is ignored with no write. -/
theorem webhook_event_filtering_witness :
    ¬ (normalize_text (some "payment_intent.succeeded") = "checkout.session.completed" ∨
        normalize_text (some "payment_intent.succeeded") =
          "checkout.session.async_payment_succeeded") ∧
    handle_stripe_webhook_event sample_settings
      { type := some "payment_intent.succeeded", data_object := WebhookEventObject.invalid }
      0 [] = { result := Except.ok (), store := [], calls := [] } ∧
    pyLower (normalize_text sample_unpaid_session.payment_status) ≠ "paid" ∧
    handle_stripe_webhook_event sample_settings
      { type := some "checkout.session.completed"
        data_object := WebhookEventObject.dictLike sample_unpaid_session }
      0 [] = { result := Except.ok (), store := [], calls := [] } :=
  ⟨by decide,
   (webhook_event_filtering sample_settings 0 []).1
     { type := some "payment_intent.succeeded", data_object := WebhookEventObject.invalid }
     (by decide),
   by decide,
   (webhook_event_filtering sample_settings 0 []).2.1 sample_unpaid_session (by decide)⟩

/-- Concrete catalog snapshot with one active product priced 49.99. -/
def sample_catalog : List (String × CatalogProduct) :=
  [("p1", { name := some "Robe Marcelina"
            images := ["https://img.example/p1.jpg"]
            price := some (4999, 2) })]

/-- Concrete cart used by witnesses. -/
def sample_cart : List CheckoutCartItem :=
  [{ product_id := "p1", quantity := 2, size := some "38" }]

/-- Concrete well-formed gateway response to a session-creation call. -/
def sample_gateway_response : GatewayCreateResponse :=
  { id := some "cs_test_new123", url := some "https://checkout.stripe.example/pay" }

/-- C9 (amended): a session-creation request whose trimmed idempotency key
exceeds 255 characters is rejected with the validation error before any
payment-gateway call (the outcome has an empty call trace); a key whose
trimmed value is non-blank and at most 255 characters is passed, trimmed,
to the gateway call, while a key that is blank after trimming is treated as
an absent key. -/
theorem idempotency_key_rules (settings : Settings)
    (catalog : List (String × CatalogProduct)) (gwr : GatewayCreateResponse)
    (items : List CheckoutCartItem) (customer : Option CheckoutCustomerReference)
    (raw : String) :
    (255 < (pyStrip raw).length →
      checkout_session_create settings catalog gwr items (some raw) customer =
        { result := Except.error (400, "Idempotency-Key too long"), calls := [] }) ∧
    (pyStrip raw ≠ "" → (pyStrip raw).length ≤ 255 → settings.stripe_secret_key ≠ "" →
      ∀ (line_items : List LineItem) (items_count : Int),
        build_line_items settings catalog items = Except.ok (line_items, items_count) →
        (checkout_session_create settings catalog gwr items (some raw) customer).calls =
          [ExternalCall.gateway_create_session (some (pyStrip raw))]) := by
  constructor
  · intro hlong
    have hne : pyStrip raw ≠ "" := by
      intro hc
      rw [hc] at hlong
      simp at hlong
    unfold checkout_session_create normalize_idempotency_key
    dsimp only
    rw [if_neg hne, if_pos hlong]
  · intro hne hle hkey line_items items_count hbuild
    unfold checkout_session_create normalize_idempotency_key
    dsimp only
    rw [if_neg hne, if_neg (by omega : ¬ 255 < (pyStrip raw).length)]
    dsimp only
    unfold create_checkout_session
    dsimp only
    rw [if_neg hkey, hbuild]
    dsimp only
    rw [if_neg hne]
    cases hval : validate_create_response gwr <;> rfl

/-- Counterexample for C9 as stated: a present idempotency key of one space
has a trimmed value of at most 255 characters and is accepted, but the
gateway call is made with no key at all (the blank key is treated as
absent, not passed). -/
theorem idempotency_key_blank_counterexample :
    (pyStrip " ").length ≤ 255 ∧
    checkout_session_create sample_settings sample_catalog sample_gateway_response
        sample_cart (some " ") none =
      { result := Except.ok
          { session_id := "cs_test_new123"
            checkout_url := "https://checkout.stripe.example/pay" }
        calls := [ExternalCall.gateway_create_session none] } ∧
    (none : Option String) ≠ some (pyStrip " ") :=
  ⟨by decide, by decide, by decide⟩

/-- Concrete key of 256 characters. -/
def long_key : String := ⟨List.replicate 256 'a'⟩

/-- Witness for C9 (amended): the 256-character key is rejected with no
gateway call, and a short key is passed trimmed to the gateway. -/
theorem idempotency_key_rules_witness :
    checkout_session_create sample_settings sample_catalog sample_gateway_response
        sample_cart (some long_key) none =
      { result := Except.error (400, "Idempotency-Key too long"), calls := [] } ∧
    (checkout_session_create sample_settings sample_catalog sample_gateway_response
        sample_cart (some " key-1 ") none).calls =
      [ExternalCall.gateway_create_session (some (pyStrip " key-1 "))] :=
  ⟨(idempotency_key_rules sample_settings sample_catalog sample_gateway_response
      sample_cart none long_key).1 (by decide),
   (idempotency_key_rules sample_settings sample_catalog sample_gateway_response
      sample_cart none " key-1 ").2 (by decide) (by decide) (by decide)
     [{ currency := "eur", unit_amount := 4999, name := "Robe Marcelina"
        size := some "38", image := some "https://img.example/p1.jpg"
        product_id := "p1", quantity := 2 }] 2 (by decide)⟩

/-- Spec wording: total quantity of a cart, the sum of the line quantities. -/
def cart_total_quantity (items : List CheckoutCartItem) : Int :=
  (items.map (fun it => it.quantity)).sum

/-- Spec wording: merge keys in insertion order of first occurrence. -/
def spec_first_occurrence_keys (l : List (String × Option String)) :
    List (String × Option String) :=
  l.foldl (fun ks k => if k ∈ ks then ks else ks ++ [k]) []

/-- Total quantity recorded in a merged accumulator under one key. -/
def merged_quantity (m : List ((String × Option String) × Int))
    (k : String × Option String) : Int :=
  ((m.filter (fun kv => kv.1 == k)).map (fun kv => kv.2)).sum

/-- Spec wording: total input quantity of the cart lines with one merge
identity. -/
def cart_key_quantity (items : List CheckoutCartItem) (k : String × Option String) : Int :=
  ((items.filter (fun it => merge_key it == k)).map (fun it => it.quantity)).sum

theorem any_key_iff (l : List ((String × Option String) × Int)) (k : String × Option String) :
    l.any (fun kv => kv.1 == k) = true ↔ ∃ kv ∈ l, kv.1 = k := by
  simp [List.any_eq_true]

theorem map_replace_of_not_mem (l : List ((String × Option String) × Int))
    (k : String × Option String) (q : Int) (h : ∀ kv ∈ l, kv.1 ≠ k) :
    l.map (fun kv => if kv.1 = k then (kv.1, kv.2 + q) else kv) = l := by
  induction l with
  | nil => rfl
  | cons x t ih =>
    rw [List.map_cons, if_neg (h x (List.mem_cons_self x t)),
      ih (fun kv hkv => h kv (List.mem_cons_of_mem x hkv))]

theorem sum_map_replace (acc : List ((String × Option String) × Int))
    (k : String × Option String) (q : Int)
    (hmem : ∃ kv ∈ acc, kv.1 = k)
    (hnodup : (acc.map (fun kv => kv.1)).Nodup) :
    ((acc.map (fun kv => if kv.1 = k then (kv.1, kv.2 + q) else kv)).map
      (fun kv => kv.2)).sum = ((acc.map (fun kv => kv.2)).sum) + q := by
  induction acc with
  | nil => simp at hmem
  | cons x t ih =>
    rw [List.map_cons] at hnodup
    have hx_notin := (List.nodup_cons.mp hnodup).1
    have ht_nodup := (List.nodup_cons.mp hnodup).2
    by_cases hx : x.1 = k
    · have htail : ∀ kv ∈ t, kv.1 ≠ k := by
        intro kv hkv hc
        have hmem2 : kv.1 ∈ List.map (fun kv => kv.1) t :=
          List.mem_map_of_mem (fun kv => kv.1) hkv
        rw [hc, ← hx] at hmem2
        exact hx_notin hmem2
      rw [List.map_cons, if_pos hx, map_replace_of_not_mem t k q htail]
      simp only [List.map_cons, List.sum_cons]
      ring
    · rcases hmem with ⟨kv, hkv, hkveq⟩
      rcases List.mem_cons.mp hkv with rfl | hkv2
      · exact absurd hkveq hx
      · rw [List.map_cons, if_neg hx]
        simp only [List.map_cons, List.sum_cons]
        rw [ih ⟨kv, hkv2, hkveq⟩ ht_nodup]
        ring

theorem sum_add_quantity (acc : List ((String × Option String) × Int))
    (k : String × Option String) (q : Int)
    (hnodup : (acc.map (fun kv => kv.1)).Nodup) :
    ((add_quantity acc k q).map (fun kv => kv.2)).sum =
      ((acc.map (fun kv => kv.2)).sum) + q := by
  unfold add_quantity
  by_cases h : acc.any (fun kv => kv.1 == k) = true
  · rw [if_pos h]
    exact sum_map_replace acc k q ((any_key_iff acc k).mp h) hnodup
  · rw [if_neg h]
    simp

theorem keys_add_quantity (acc : List ((String × Option String) × Int))
    (k : String × Option String) (q : Int) :
    (add_quantity acc k q).map (fun kv => kv.1) =
      (if k ∈ acc.map (fun kv => kv.1) then acc.map (fun kv => kv.1)
       else acc.map (fun kv => kv.1) ++ [k]) := by
  unfold add_quantity
  by_cases h : acc.any (fun kv => kv.1 == k) = true
  · rw [if_pos h]
    have hmem : k ∈ acc.map (fun kv => kv.1) := by
      rcases (any_key_iff acc k).mp h with ⟨kv, hkv, hkveq⟩
      exact hkveq ▸ List.mem_map_of_mem (fun kv => kv.1) hkv
    rw [if_pos hmem, List.map_map]
    refine List.map_congr_left ?_
    intro kv hkv
    by_cases hkveq : kv.1 = k
    · simp [hkveq]
    · simp [hkveq]
  · rw [if_neg h]
    have hnot : ¬ k ∈ acc.map (fun kv => kv.1) := by
      intro hc
      rcases List.mem_map.mp hc with ⟨kv, hkv, hkveq⟩
      exact h ((any_key_iff acc k).mpr ⟨kv, hkv, hkveq⟩)
    rw [if_neg hnot, List.map_append]
    rfl

theorem nodup_keys_add_quantity (acc : List ((String × Option String) × Int))
    (k : String × Option String) (q : Int)
    (hnodup : (acc.map (fun kv => kv.1)).Nodup) :
    ((add_quantity acc k q).map (fun kv => kv.1)).Nodup := by
  rw [keys_add_quantity]
  by_cases hmem : k ∈ acc.map (fun kv => kv.1)
  · rw [if_pos hmem]
    exact hnodup
  · rw [if_neg hmem]
    exact List.Nodup.append hnodup (List.nodup_singleton k)
      ((List.disjoint_singleton).mpr hmem)

theorem merged_quantity_nil (k2 : String × Option String) :
    merged_quantity [] k2 = 0 := rfl

theorem merged_quantity_cons_pos (x : (String × Option String) × Int)
    (t : List ((String × Option String) × Int)) (k2 : String × Option String)
    (h : (x.1 == k2) = true) :
    merged_quantity (x :: t) k2 = x.2 + merged_quantity t k2 := by
  unfold merged_quantity
  rw [List.filter_cons, h]
  simp

theorem merged_quantity_cons_neg (x : (String × Option String) × Int)
    (t : List ((String × Option String) × Int)) (k2 : String × Option String)
    (h : (x.1 == k2) = false) :
    merged_quantity (x :: t) k2 = merged_quantity t k2 := by
  unfold merged_quantity
  rw [List.filter_cons, h]
  simp

theorem merged_quantity_append (l1 l2 : List ((String × Option String) × Int))
    (k2 : String × Option String) :
    merged_quantity (l1 ++ l2) k2 = merged_quantity l1 k2 + merged_quantity l2 k2 := by
  unfold merged_quantity
  rw [List.filter_append, List.map_append, List.sum_append]

theorem merged_quantity_map_replace (acc : List ((String × Option String) × Int))
    (k : String × Option String) (q : Int) (k2 : String × Option String)
    (hmem : ∃ kv ∈ acc, kv.1 = k)
    (hnodup : (acc.map (fun kv => kv.1)).Nodup) :
    merged_quantity (acc.map (fun kv => if kv.1 = k then (kv.1, kv.2 + q) else kv)) k2 =
      merged_quantity acc k2 + (if k2 = k then q else 0) := by
  induction acc with
  | nil => simp at hmem
  | cons x t ih =>
    rw [List.map_cons] at hnodup
    have hx_notin := (List.nodup_cons.mp hnodup).1
    have ht_nodup := (List.nodup_cons.mp hnodup).2
    by_cases hx : x.1 = k
    · have htail : ∀ kv ∈ t, kv.1 ≠ k := by
        intro kv hkv hc
        have hmem2 : kv.1 ∈ List.map (fun kv => kv.1) t :=
          List.mem_map_of_mem (fun kv => kv.1) hkv
        rw [hc, ← hx] at hmem2
        exact hx_notin hmem2
      rw [List.map_cons, if_pos hx, map_replace_of_not_mem t k q htail]
      by_cases hk2 : k2 = k
      · have h1 : (((x.1, x.2 + q) : (String × Option String) × Int).1 == k2) = true := by
          rw [beq_iff_eq]
          show x.1 = k2
          rw [hx, hk2]
        have h2 : (x.1 == k2) = true := by
          rw [beq_iff_eq, hx, hk2]
        rw [merged_quantity_cons_pos _ _ _ h1, merged_quantity_cons_pos _ _ _ h2, if_pos hk2]
        show x.2 + q + merged_quantity t k2 = x.2 + merged_quantity t k2 + q
        ring
      · have h1 : (((x.1, x.2 + q) : (String × Option String) × Int).1 == k2) = false := by
          rw [beq_eq_false_iff_ne]
          show x.1 ≠ k2
          rw [hx]
          exact fun hc => hk2 hc.symm
        have h2 : (x.1 == k2) = false := by
          rw [beq_eq_false_iff_ne, hx]
          exact fun hc => hk2 hc.symm
        rw [merged_quantity_cons_neg _ _ _ h1, merged_quantity_cons_neg _ _ _ h2, if_neg hk2]
        ring
    · rcases hmem with ⟨kv, hkv, hkveq⟩
      rcases List.mem_cons.mp hkv with rfl | hkv2
      · exact absurd hkveq hx
      · rw [List.map_cons, if_neg hx]
        have hrec := ih ⟨kv, hkv2, hkveq⟩ ht_nodup
        by_cases hxk2 : (x.1 == k2) = true
        · rw [merged_quantity_cons_pos _ _ _ hxk2, merged_quantity_cons_pos _ _ _ hxk2, hrec]
          ring
        · have hxf : (x.1 == k2) = false := by
            rw [Bool.eq_false_iff]
            exact hxk2
          rw [merged_quantity_cons_neg _ _ _ hxf, merged_quantity_cons_neg _ _ _ hxf, hrec]

theorem merged_quantity_add_quantity (acc : List ((String × Option String) × Int))
    (k : String × Option String) (q : Int) (k2 : String × Option String)
    (hnodup : (acc.map (fun kv => kv.1)).Nodup) :
    merged_quantity (add_quantity acc k q) k2 =
      merged_quantity acc k2 + (if k2 = k then q else 0) := by
  unfold add_quantity
  by_cases h : acc.any (fun kv => kv.1 == k) = true
  · rw [if_pos h]
    exact merged_quantity_map_replace acc k q k2 ((any_key_iff acc k).mp h) hnodup
  · rw [if_neg h]
    rw [merged_quantity_append]
    by_cases hk2 : k2 = k
    · have h1 : (((k, q) : (String × Option String) × Int).1 == k2) = true := by
        rw [beq_iff_eq]
        exact hk2.symm
      rw [merged_quantity_cons_pos _ _ _ h1, merged_quantity_nil, if_pos hk2]
      show merged_quantity acc k2 + (q + 0) = merged_quantity acc k2 + q
      ring
    · have h1 : (((k, q) : (String × Option String) × Int).1 == k2) = false := by
        rw [beq_eq_false_iff_ne]
        exact fun hc => hk2 hc.symm
      rw [merged_quantity_cons_neg _ _ _ h1, merged_quantity_nil, if_neg hk2]

theorem cart_key_quantity_cons (it : CheckoutCartItem) (t : List CheckoutCartItem)
    (k2 : String × Option String) :
    cart_key_quantity (it :: t) k2 =
      (if merge_key it = k2 then it.quantity else 0) + cart_key_quantity t k2 := by
  unfold cart_key_quantity
  rw [List.filter_cons]
  by_cases h : merge_key it = k2
  · have hb : (merge_key it == k2) = true := beq_iff_eq.mpr h
    rw [hb, if_pos h]
    simp
  · have hb : (merge_key it == k2) = false := by
      rw [beq_eq_false_iff_ne]
      exact h
    rw [hb, if_neg h]
    simp

theorem merge_cart_items_cons_valid (it : CheckoutCartItem) (t : List CheckoutCartItem)
    (acc : List ((String × Option String) × Int))
    (hpid : ¬ pyStrip it.product_id = "") (hq1 : ¬ it.quantity ≤ 0)
    (hq2 : ¬ 20 < it.quantity) :
    merge_cart_items (it :: t) acc =
      merge_cart_items t (add_quantity acc (merge_key it) it.quantity) := by
  conv_lhs => unfold merge_cart_items
  rw [if_neg hpid, if_neg hq1, if_neg hq2]

theorem merge_cart_items_spec (items : List CheckoutCartItem) :
    ∀ acc : List ((String × Option String) × Int),
    (∀ it ∈ items, pyStrip it.product_id ≠ "" ∧ 1 ≤ it.quantity ∧ it.quantity ≤ 20) →
    (acc.map (fun kv => kv.1)).Nodup →
    ∃ m, merge_cart_items items acc = Except.ok m ∧
      (m.map (fun kv => kv.2)).sum =
        ((acc.map (fun kv => kv.2)).sum) + cart_total_quantity items ∧
      m.map (fun kv => kv.1) =
        (items.map merge_key).foldl (fun ks k => if k ∈ ks then ks else ks ++ [k])
          (acc.map (fun kv => kv.1)) ∧
      (m.map (fun kv => kv.1)).Nodup ∧
      (∀ k2, merged_quantity m k2 = merged_quantity acc k2 + cart_key_quantity items k2) := by
  induction items with
  | nil =>
    intro acc hvalid hnodup
    refine ⟨acc, rfl, ?_, by simp, hnodup, ?_⟩
    · simp [cart_total_quantity]
    · intro k2
      simp [cart_key_quantity]
  | cons it t ih =>
    intro acc hvalid hnodup
    obtain ⟨hpid, hq1, hq2⟩ := hvalid it (List.mem_cons_self it t)
    have hvt : ∀ x ∈ t, pyStrip x.product_id ≠ "" ∧ 1 ≤ x.quantity ∧ x.quantity ≤ 20 :=
      fun x hx => hvalid x (List.mem_cons_of_mem it hx)
    have hnodup2 := nodup_keys_add_quantity acc (merge_key it) it.quantity hnodup
    obtain ⟨m, hm, hsum, hkeys, hnodup3, hlook⟩ :=
      ih (add_quantity acc (merge_key it) it.quantity) hvt hnodup2
    refine ⟨m, ?_, ?_, ?_, hnodup3, ?_⟩
    · rw [merge_cart_items_cons_valid it t acc hpid (by omega) (by omega)]
      exact hm
    · rw [hsum, sum_add_quantity acc (merge_key it) it.quantity hnodup]
      have : cart_total_quantity (it :: t) = it.quantity + cart_total_quantity t := by
        simp [cart_total_quantity]
      rw [this]
      ring
    · rw [hkeys, List.map_cons, List.foldl_cons, keys_add_quantity]
    · intro k2
      rw [hlook k2, merged_quantity_add_quantity acc (merge_key it) it.quantity k2 hnodup,
        cart_key_quantity_cons]
      by_cases hk : k2 = merge_key it
      · rw [if_pos hk, if_pos hk.symm]
        ring
      · rw [if_neg hk, if_neg (fun hc => hk hc.symm)]
        ring

/-- C7: for every cart of 1 to 50 lines with non-blank product ids and
quantities between 1 and 20, the merge loop succeeds, the total item count
equals the sum of the input quantities, the merged lines appear in insertion
order of first occurrence of their merge identity, each merged quantity is
the sum of the input quantities sharing that identity, and any total item
count returned by the full line-item builder equals that same sum. -/
theorem cart_merge_preserves_total (items : List CheckoutCartItem)
    (hne : items ≠ []) (hlen : items.length ≤ 50)
    (hvalid : ∀ it ∈ items, pyStrip it.product_id ≠ "" ∧ 1 ≤ it.quantity ∧ it.quantity ≤ 20) :
    ∃ m, merge_cart_items items [] = Except.ok m ∧
      (m.map (fun kv => kv.2)).sum = cart_total_quantity items ∧
      m.map (fun kv => kv.1) = spec_first_occurrence_keys (items.map merge_key) ∧
      (∀ k, merged_quantity m k = cart_key_quantity items k) ∧
      (∀ (settings : Settings) (catalog : List (String × CatalogProduct))
          (line_items : List LineItem) (total : Int),
        build_line_items settings catalog items = Except.ok (line_items, total) →
        total = cart_total_quantity items) := by
  obtain ⟨m, hm, hsum, hkeys, hnodup, hlook⟩ :=
    merge_cart_items_spec items [] hvalid (by simp)
  have hsum0 : (m.map (fun kv => kv.2)).sum = cart_total_quantity items := by
    rw [hsum]
    simp
  refine ⟨m, hm, hsum0, ?_, ?_, ?_⟩
  · rw [hkeys]
    rfl
  · intro k
    rw [hlook k, merged_quantity_nil]
    ring
  · intro settings catalog line_items total hbuild
    unfold build_line_items at hbuild
    rw [if_neg hne, hm] at hbuild
    dsimp only at hbuild
    cases hres : resolve_line_items settings catalog m with
    | error e =>
      rw [hres] at hbuild
      exact absurd hbuild (by simp)
    | ok li2 =>
      rw [hres] at hbuild
      simp only [Except.ok.injEq, Prod.mk.injEq] at hbuild
      rw [← hbuild.2, hsum0]

/-- Concrete cart with two lines sharing a merge identity, used by the C7
witness. -/
def c7_cart : List CheckoutCartItem :=
  [{ product_id := "p1", quantity := 2, size := some "38" },
   { product_id := "p1", quantity := 1, size := some " 38 " }]

/-- Witness for C7: the two-line cart merges to quantity 3. -/
theorem cart_merge_preserves_total_witness :
    ∃ m, merge_cart_items c7_cart [] = Except.ok m ∧
      (m.map (fun kv => kv.2)).sum = cart_total_quantity c7_cart ∧
      m.map (fun kv => kv.1) = spec_first_occurrence_keys (c7_cart.map merge_key) ∧
      (∀ k, merged_quantity m k = cart_key_quantity c7_cart k) ∧
      (∀ (settings : Settings) (catalog : List (String × CatalogProduct))
          (line_items : List LineItem) (total : Int),
        build_line_items settings catalog c7_cart = Except.ok (line_items, total) →
        total = cart_total_quantity c7_cart) :=
  cart_merge_preserves_total c7_cart (by decide) (by decide) (by decide)

theorem upsert_matches_eq (store : OrderStore) (o : ConfirmedOrderData) :
    ∀ row ∈ upsert_confirmed_order store o, row.order_number = o.order_number → row = o := by
  intro row hrow hkey
  unfold upsert_confirmed_order at hrow
  by_cases h : store.any (fun r => r.order_number == o.order_number) = true
  · rw [if_pos h] at hrow
    rcases List.mem_map.mp hrow with ⟨r, hr, hreq⟩
    by_cases hmatch : r.order_number = o.order_number
    · rw [if_pos hmatch] at hreq
      exact hreq.symm
    · rw [if_neg hmatch] at hreq
      rw [← hreq] at hkey
      exact absurd hkey hmatch
  · rw [if_neg h] at hrow
    rcases List.mem_append.mp hrow with h1 | h2
    · exfalso
      apply h
      exact List.any_eq_true.mpr ⟨row, h1, beq_iff_eq.mpr hkey⟩
    · exact List.mem_singleton.mp h2

theorem order_row_count_upsert (store : OrderStore) (o : ConfirmedOrderData)
    (h : order_row_count store o.order_number ≤ 1) :
    order_row_count (upsert_confirmed_order store o) o.order_number = 1 := by
  unfold order_row_count at h ⊢
  unfold upsert_confirmed_order
  by_cases hany : store.any (fun r => r.order_number == o.order_number) = true
  · rw [if_pos hany]
    have hpt : ((fun row : ConfirmedOrderData => row.order_number == o.order_number) ∘
        (fun row : ConfirmedOrderData =>
          if row.order_number = o.order_number then o else row)) =
        (fun row : ConfirmedOrderData => row.order_number == o.order_number) := by
      funext r
      by_cases hm : r.order_number = o.order_number
      · simp [hm]
      · simp [hm]
    rw [List.filter_map, hpt, List.length_map]
    rcases List.any_eq_true.mp hany with ⟨r, hr, hpr⟩
    have hpos : 0 < (store.filter
        (fun row => row.order_number == o.order_number)).length :=
      List.length_pos.mpr (List.ne_nil_of_mem (List.mem_filter.mpr ⟨hr, hpr⟩))
    omega
  · rw [if_neg hany, List.filter_append]
    have h0 : store.filter (fun row => row.order_number == o.order_number) = [] := by
      rw [List.filter_eq_nil_iff]
      intro r hr hc
      exact hany (List.any_eq_true.mpr ⟨r, hr, hc⟩)
    rw [h0]
    simp

theorem eq_singleton_of_length_one_of_all_eq {α : Type} (l : List α) (a : α)
    (hlen : l.length = 1) (hall : ∀ x ∈ l, x = a) : l = [a] := by
  cases l with
  | nil => simp at hlen
  | cons y t =>
    cases t with
    | nil => rw [hall y (by simp)]
    | cons z t2 => simp at hlen

theorem filter_upsert_eq (store : OrderStore) (o : ConfirmedOrderData)
    (h : order_row_count store o.order_number ≤ 1) :
    (upsert_confirmed_order store o).filter
      (fun row => row.order_number == o.order_number) = [o] := by
  have hlen := order_row_count_upsert store o h
  unfold order_row_count at hlen
  refine eq_singleton_of_length_one_of_all_eq _ o hlen ?_
  intro x hx
  rcases List.mem_filter.mp hx with ⟨hmem, hp⟩
  exact upsert_matches_eq store o x hmem (beq_iff_eq.mp hp)

theorem upsert_any_true (store : OrderStore) (o : ConfirmedOrderData) :
    (upsert_confirmed_order store o).any
      (fun r => r.order_number == o.order_number) = true := by
  unfold upsert_confirmed_order
  by_cases hany : store.any (fun r => r.order_number == o.order_number) = true
  · rw [if_pos hany]
    rcases List.any_eq_true.mp hany with ⟨r, hr, hpr⟩
    refine List.any_eq_true.mpr
      ⟨if r.order_number = o.order_number then o else r,
        List.mem_map_of_mem _ hr, ?_⟩
    rw [if_pos (beq_iff_eq.mp hpr)]
    simp
  · rw [if_neg hany]
    exact List.any_eq_true.mpr ⟨o, List.mem_append_right _ (by simp), by simp⟩

theorem map_replace_rows_self (o : ConfirmedOrderData) (l : OrderStore)
    (h : ∀ row ∈ l, row.order_number = o.order_number → row = o) :
    l.map (fun row => if row.order_number = o.order_number then o else row) = l := by
  induction l with
  | nil => rfl
  | cons x t ih =>
    rw [List.map_cons]
    by_cases hx : x.order_number = o.order_number
    · rw [if_pos hx, ih (fun r hr hk => h r (List.mem_cons_of_mem x hr) hk),
        h x (List.mem_cons_self x t) hx]
    · rw [if_neg hx, ih (fun r hr hk => h r (List.mem_cons_of_mem x hr) hk)]

theorem upsert_eq_self_of (l : OrderStore) (o : ConfirmedOrderData)
    (hany : l.any (fun r => r.order_number == o.order_number) = true)
    (hall : ∀ row ∈ l, row.order_number = o.order_number → row = o) :
    upsert_confirmed_order l o = l := by
  unfold upsert_confirmed_order
  rw [if_pos hany]
  exact map_replace_rows_self o l hall

theorem upsert_idempotent (store : OrderStore) (o : ConfirmedOrderData) :
    upsert_confirmed_order (upsert_confirmed_order store o) o =
      upsert_confirmed_order store o :=
  upsert_eq_self_of (upsert_confirmed_order store o) o (upsert_any_true store o)
    (upsert_matches_eq store o)

theorem build_confirmed_order_time_independent (settings : Settings)
    (session : StripeSession) (fb : Option String) (n : Int)
    (hcr : session.created = some n) (hpos : 0 < n) (t1 t2 : Nat) :
    build_confirmed_order settings session fb t1 =
      build_confirmed_order settings session fb t2 := by
  have h : ∀ t : Nat, resolve_ordered_at session.created t = OrderedAt.epochTime n := by
    intro t
    rw [hcr]
    unfold resolve_ordered_at
    dsimp only
    rw [if_pos hpos]
  unfold build_confirmed_order
  dsimp only
  rw [h t1, h t2]

theorem sync_paid_writes (settings : Settings) (session : StripeSession)
    (session_id : String) (t : Nat) (store : OrderStore) (o : ConfirmedOrderData)
    (hsid : pyStrip session_id ≠ "")
    (hkey : settings.stripe_secret_key ≠ "")
    (hpaid : pyLower (normalize_text session.payment_status) = "paid")
    (hb : build_confirmed_order settings session none t = Except.ok (some o)) :
    sync_checkout_session_order settings session session_id none t store =
      { result := Except.ok
          { payment_status := "paid", order_recorded := true
            order_number := some o.order_number }
        store := upsert_confirmed_order store o
        calls := [ExternalCall.retrieve_session (pyStrip session_id),
                  ExternalCall.upsert_order o] } := by
  unfold sync_checkout_session_order
  dsimp only
  have hguard : ¬ (normalize_text (none : Option String) ≠ "" ∧
      is_valid_uuid (normalize_text (none : Option String)) = false) := by
    rintro ⟨hg, _⟩
    exact hg rfl
  rw [if_neg hguard, if_neg hsid, if_neg hkey, if_neg (not_not_intro hpaid)]
  have hnone : normalize_text (none : Option String) = "" := rfl
  rw [if_pos hnone, hb]
  dsimp only
  rw [if_neg (fun hc => hc.1 rfl)]
  rfl

/-- C1 (amended): for every paid session payload that derives an order and
whose creation timestamp is a positive integer epoch, the derivation is
independent of the wall clock, reconciling twice yields the same derived
order and result both times, the store afterwards holds exactly one row
with that order number and that row is the derived order, and the upsert
itself is idempotent. -/
theorem reconcile_retry_idempotent (settings : Settings) (session : StripeSession)
    (session_id : String) (store : OrderStore) (t1 t2 : Nat)
    (o : ConfirmedOrderData) (n : Int)
    (hsid : pyStrip session_id ≠ "")
    (hkey : settings.stripe_secret_key ≠ "")
    (hpaid : pyLower (normalize_text session.payment_status) = "paid")
    (hcr : session.created = some n) (hpos : 0 < n)
    (hderive : build_confirmed_order settings session none t1 = Except.ok (some o))
    (hstore : order_row_count store o.order_number ≤ 1) :
    build_confirmed_order settings session none t2 = Except.ok (some o) ∧
    upsert_confirmed_order (upsert_confirmed_order store o) o =
      upsert_confirmed_order store o ∧
    (sync_checkout_session_order settings session session_id none t1 store).result =
      Except.ok { payment_status := "paid", order_recorded := true
                  order_number := some o.order_number } ∧
    (sync_checkout_session_order settings session session_id none t2
        (sync_checkout_session_order settings session session_id none t1 store).store).result =
      Except.ok { payment_status := "paid", order_recorded := true
                  order_number := some o.order_number } ∧
    (sync_checkout_session_order settings session session_id none t2
        (sync_checkout_session_order settings session session_id none t1 store).store).store =
      upsert_confirmed_order store o ∧
    order_row_count (upsert_confirmed_order store o) o.order_number = 1 ∧
    (upsert_confirmed_order store o).filter
      (fun row => row.order_number == o.order_number) = [o] := by
  have hderive2 : build_confirmed_order settings session none t2 = Except.ok (some o) :=
    (build_confirmed_order_time_independent settings session none n hcr hpos t2 t1).trans
      hderive
  have h1 := sync_paid_writes settings session session_id t1 store o hsid hkey hpaid hderive
  have h2 := sync_paid_writes settings session session_id t2
    (upsert_confirmed_order store o) o hsid hkey hpaid hderive2
  refine ⟨hderive2, upsert_idempotent store o, ?_, ?_, ?_,
    order_row_count_upsert store o hstore, filter_upsert_eq store o hstore⟩
  · rw [h1]
  · rw [h1, h2]
  · rw [h1, h2]
    exact upsert_idempotent store o

/-- Concrete paid session payload with no creation timestamp, used by the C1
counterexample. -/
def c1_session : StripeSession :=
  { id := some "cs_test_c1a"
    payment_status := some "paid"
    client_reference_id := some "33333333-3333-4333-8333-333333333333"
    metadata_user_id := none
    metadata_items_count := none
    amount_total := some (AmountValue.intVal 1000)
    currency := some "eur"
    created := none }

/-- Order derived from `c1_session` at wall-clock time 0. -/
def c1_order_first : ConfirmedOrderData :=
  { order_number := "MM-CSTESTC1A"
    user_id := "33333333-3333-4333-8333-333333333333"
    status := "En preparation"
    total_amount_cents := 1000
    currency := "EUR"
    items_count := 1
    ordered_at := OrderedAt.wallClock 0 }

/-- Order derived from `c1_session` at wall-clock time 1. -/
def c1_order_second : ConfirmedOrderData :=
  { order_number := "MM-CSTESTC1A"
    user_id := "33333333-3333-4333-8333-333333333333"
    status := "En preparation"
    total_amount_cents := 1000
    currency := "EUR"
    items_count := 1
    ordered_at := OrderedAt.wallClock 1 }

/-- Counterexample for C1 as stated: a paid, derivable session payload whose
creation timestamp is absent derives orders with different field values
(ordered_at) on two reconciliation attempts, so the derivation is not a
function of the payload alone. -/
theorem reconcile_retry_counterexample :
    pyLower (normalize_text c1_session.payment_status) = "paid" ∧
    build_confirmed_order sample_settings c1_session none 0 =
      Except.ok (some c1_order_first) ∧
    build_confirmed_order sample_settings c1_session none 1 =
      Except.ok (some c1_order_second) ∧
    c1_order_first ≠ c1_order_second :=
  ⟨by decide, by decide, by decide, by decide⟩

/-- Concrete paid session payload with a positive creation epoch, used by
the C1 witness. -/
def c1_paid_session : StripeSession :=
  { id := some "cs_test_c1b"
    payment_status := some "paid"
    client_reference_id := some "33333333-3333-4333-8333-333333333333"
    metadata_user_id := none
    metadata_items_count := none
    amount_total := some (AmountValue.intVal 1000)
    currency := some "eur"
    created := some 1700000000 }

/-- Order derived from `c1_paid_session` at any wall-clock time. -/
def c1_paid_order : ConfirmedOrderData :=
  { order_number := "MM-CSTESTC1B"
    user_id := "33333333-3333-4333-8333-333333333333"
    status := "En preparation"
    total_amount_cents := 1000
    currency := "EUR"
    items_count := 1
    ordered_at := OrderedAt.epochTime 1700000000 }

/-- Witness for C1 (amended) at two distinct reconciliation times. -/
theorem reconcile_retry_idempotent_witness :
    build_confirmed_order sample_settings c1_paid_session none 9 =
      Except.ok (some c1_paid_order) ∧
    (sync_checkout_session_order sample_settings c1_paid_session "cs_test_c1b" none 9
        (sync_checkout_session_order sample_settings c1_paid_session "cs_test_c1b"
          none 5 []).store).store =
      upsert_confirmed_order [] c1_paid_order ∧
    order_row_count (upsert_confirmed_order [] c1_paid_order)
      c1_paid_order.order_number = 1 ∧
    (upsert_confirmed_order [] c1_paid_order).filter
      (fun row => row.order_number == c1_paid_order.order_number) = [c1_paid_order] := by
  have h := reconcile_retry_idempotent sample_settings c1_paid_session "cs_test_c1b" [] 5 9
    c1_paid_order 1700000000 (by decide) (by decide) (by decide) (by decide) (by decide)
    (by decide) (by decide)
  exact ⟨h.1, h.2.2.2.2.1, h.2.2.2.2.2.1, h.2.2.2.2.2.2⟩
